import Mathlib

/-!
Verification development for the TDX TDP-MMU subsystem
(`arch/x86/kvm/mmu/tdp_mmu.c`).

The 64-bit shadow-page-table-entry (SPTE) values are modelled as `Nat`
with explicit bit positions.  Stateful C routines are embedded as pure
Lean functions from an explicit input state (plus oracles standing for
the results of external secure-resource-manager calls) to a result
structure recording the new state and every observable side effect.
-/

set_option maxRecDepth 40000

namespace TdpMmu

/-! ## Page-table-entry codec

Modelled from the spec (§3, §4.1): the definitions of the SPTE bit
layout live in `spte.h`/`spte.c`, which are not part of the provided
sources; only their use sites in `tdp_mmu.c` are.  The layout follows
the spec's description: a present bit, permission bits, a huge-page
bit, a physical-frame-number field, and software bits for the
"removed" (frozen) sentinel and the private-"zapped" (quarantine)
sentinel. -/

/-- Modelled from the spec: page size shift (4K pages). -/
def PAGE_SHIFT : Nat := 12

/-- Modelled from the spec: number of SPTE slots per page-table page. -/
def SPTE_ENT_PER_PAGE : Nat := 512

/-- Modelled from the spec: software "MMU-present" bit of an SPTE. -/
def SPTE_MMU_PRESENT_BIT : Nat := 11

/-- Modelled from the spec: hardware writable permission bit. -/
def PT_WRITABLE_MASK : Nat := 2

/-- Modelled from the spec: huge-page (page-size) bit. -/
def PT_PAGE_SIZE_MASK : Nat := 2 ^ 7

/-- Modelled from the spec: value installed in a non-present SPTE
(TDX sets a high "suppress #VE" bit rather than plain zero). -/
def SHADOW_NONPRESENT_VALUE : Nat := 2 ^ 63

/-- Modelled from the spec: software bit marking a private SPTE as
temporarily blocked (quarantined) pending a secure-resource-manager
action. -/
def SPTE_PRIVATE_ZAPPED : Nat := 2 ^ 62

/-- Modelled from the spec: the frozen "removed" sentinel value that
claims a slot mid-update; non-present and distinct from every real
translation. -/
def REMOVED_SPTE : Nat := SHADOW_NONPRESENT_VALUE + 0x5a0

/-- Modelled from the spec: accessed bit of a leaf SPTE. -/
def shadow_accessed_mask : Nat := 2 ^ 8

/-- Modelled from the spec: dirty bit of a leaf SPTE. -/
def shadow_dirty_mask : Nat := 2 ^ 9

/-- Modelled from the spec: an SPTE is present when its MMU-present
software bit is set. -/
def is_shadow_present_pte (s : Nat) : Bool := s.testBit SPTE_MMU_PRESENT_BIT

/-- Modelled from the spec: huge-page bit test. -/
def is_large_pte (s : Nat) : Bool := s.testBit 7

/-- Modelled from the spec: an SPTE is "last level" (terminates the
walk) at the 4K level, or at any level when the huge-page bit is set.
Levels are 1 = 4K, 2 = 2M, 3 = 1G, as in the source. -/
def is_last_spte (s : Nat) (level : Nat) : Bool := level == 1 || is_large_pte s

/-- Modelled from the spec: extract the physical frame number
(bits 12..51). -/
def spte_to_pfn (s : Nat) : Nat := (s / 2 ^ PAGE_SHIFT) % 2 ^ 40

/-- Modelled from the spec: frozen-sentinel test. -/
def is_removed_spte (s : Nat) : Bool := s == REMOVED_SPTE

/-- Modelled from the spec: quarantine-sentinel test. -/
def is_private_zapped_spte (s : Nat) : Bool := s.testBit 62

/-- Modelled from the spec: writable-permission test. -/
def is_writable_pte (s : Nat) : Bool := s.testBit 1

/-- Modelled from the spec: accessed-bit test. -/
def is_accessed_spte (s : Nat) : Bool := s.testBit 8

/-- Modelled from the spec: dirty-bit test. -/
def is_dirty_spte (s : Nat) : Bool := s.testBit 9

/-- Modelled from the spec: number of 4K pages covered by one entry at
a given level (level 1 = 4K covers 1 page, level 2 = 2M covers 512). -/
def KVM_PAGES_PER_HPAGE (level : Nat) : Nat := SPTE_ENT_PER_PAGE ^ (level - 1)

/-- Error code `EBUSY`. -/
def EBUSY : Int := 16

/-- Error code `EAGAIN`. -/
def EAGAIN : Int := 11

/-- Error code `EFAULT`. -/
def EFAULT : Int := 14

/-! ## Walker cursor (`struct tdp_iter`)

Only the fields `tdp_mmu.c` reads are modelled: the target gfn
(`next_last_level_gfn`), the forward-progress checkpoint
(`yielded_gfn`), the current position, the last observed value and the
`yielded` flag. -/

structure TdpIter where
  next_last_level_gfn : Nat
  yielded_gfn : Nat
  gfn : Nat
  level : Nat
  old_spte : Nat
  yielded : Bool
  deriving Repr, DecidableEq

/-! ## C8: `tdp_mmu_iter_cond_resched` -/

/-- Result of one call to the yield checkpoint: the returned boolean,
the updated cursor, and whether a remote TLB flush was issued. -/
structure CondReschedResult where
  returned : Bool
  iter : TdpIter
  flushed : Bool
  deriving Repr, DecidableEq

/-- Embedding of `tdp_mmu_iter_cond_resched` (tdp_mmu.c:1129-1158).
`needResched` models `need_resched()`, `contended` models
`rwlock_needbreak(&kvm->mmu_lock)`. -/
def tdp_mmu_iter_cond_resched (iter : TdpIter) (flush : Bool)
    (needResched contended : Bool) : CondReschedResult :=
  if iter.next_last_level_gfn == iter.yielded_gfn then
    { returned := false, iter := iter, flushed := false }
  else if needResched || contended then
    { returned := true
      iter := { iter with yielded := true }
      flushed := flush }
  else
    { returned := iter.yielded, iter := iter, flushed := false }

/-! ## C3: `kvm_tdp_mmu_put_root` -/

/-- A TDP MMU root page: its reference count, the `role.invalid` flag,
and the `tdp_mmu_page` marker checked by `is_tdp_mmu_page`. -/
structure RootPage where
  tdp_mmu_root_count : Nat
  invalid : Bool
  tdp_mmu_page : Bool
  deriving Repr, DecidableEq

/-- Observable outcome of `kvm_tdp_mmu_put_root`: the new reference
count, whether the `KVM_BUG_ON` assertion fired, whether the root was
unlinked from the root list, and whether its deferred (RCU
grace-period) reclamation was scheduled. -/
structure PutRootResult where
  count : Nat
  kvmBug : Bool
  unlinked : Bool
  scheduledFree : Bool
  deriving Repr, DecidableEq

/-- Embedding of `kvm_tdp_mmu_put_root` (tdp_mmu.c:134-153).
`refcount_dec_and_test` decrements and acts only when the count hits
zero; otherwise the function returns with no further effect. -/
def kvm_tdp_mmu_put_root (root : RootPage) : PutRootResult :=
  let count := root.tdp_mmu_root_count - 1
  if count ≠ 0 then
    { count := count, kvmBug := false, unlinked := false, scheduledFree := false }
  else
    { count := count
      kvmBug := !root.tdp_mmu_page || !root.invalid
      unlinked := true
      scheduledFree := true }

/-! ## C7: the fast-fail guard of `kvm_tdp_mmu_map` -/

/-- The fault-descriptor fields `kvm_tdp_mmu_map` consults before
walking: whether the fault is private, the non-leaf-walk flag, and the
state of the backing pfn (`is_error_noslot_pfn`,
`kvm_pfn_to_refcounted_page`). -/
structure PageFault where
  is_private : Bool
  nonleaf : Bool
  pfn_error_noslot : Bool
  pfn_refcounted : Bool
  deriving Repr, DecidableEq

/-- Outcome of `kvm_tdp_mmu_map` as observed by its caller: either the
immediate `-EFAULT` fast-fail (before any tree walk), or the result of
the walk/install loop (abstracted as the integer the loop would
return). -/
inductive MapOutcome where
  | efaultNoWalk
  | walked (ret : Int)
  deriving Repr, DecidableEq

/-- Embedding of the entry of `kvm_tdp_mmu_map` (tdp_mmu.c:1880-1907):
the private no-backing-page guard runs before the
`tdp_mmu_for_each_pte` walk; everything from the walk on is abstracted
as `walkResult`.  `sharedMask` models `kvm_gfn_shared_mask(kvm)`. -/
def kvm_tdp_mmu_map (sharedMask : Nat) (fault : PageFault)
    (walkResult : Int) : MapOutcome :=
  let is_private := fault.is_private && sharedMask ≠ 0
  if !fault.nonleaf && (fault.pfn_error_noslot || !fault.pfn_refcounted) then
    if is_private then MapOutcome.efaultNoWalk
    else MapOutcome.walked walkResult
  else
    MapOutcome.walked walkResult

/-! ## C1: `handle_changed_spte` -/

/-- Observable effects of one `handle_changed_spte` call
(tdp_mmu.c:652-772): whether the fatal `BUG()` host crash fired,
whether the routine returned before doing any bookkeeping, and which
bookkeeping actions it performed (page-stat delta, dirty/accessed
write-back, recursive child-table teardown, private-SPTE
secure-resource-manager handling). -/
structure ChangedSpteEffects where
  bug : Bool
  returnedNoChange : Bool
  returnedNonpresent : Bool
  pageStatsDelta : Int
  setPfnDirty : Bool
  handledPrivateZapped : Bool
  handledRemovedPt : Bool
  handledRemovedPrivate : Bool
  kvmBugPrivateZapRequired : Bool
  setPfnAccessed : Bool
  deriving Repr, DecidableEq

/-- Effect record of a call that did nothing (used as the dead-code
state after the fatal `BUG()`, which never returns). -/
def noEffects : ChangedSpteEffects :=
  { bug := false, returnedNoChange := false, returnedNonpresent := false,
    pageStatsDelta := 0, setPfnDirty := false, handledPrivateZapped := false,
    handledRemovedPt := false, handledRemovedPrivate := false,
    kvmBugPrivateZapRequired := false, setPfnAccessed := false }

/-- Embedding of `handle_changed_spte` (tdp_mmu.c:652-772).  The
booleans are computed exactly as in the source; `BUG()` does not
return, so the fatal branch yields a record with only `bug` set. -/
def handle_changed_spte (old_spte new_spte : Nat) (is_private : Bool)
    (level : Nat) (shared : Bool) : ChangedSpteEffects :=
  let was_present := is_shadow_present_pte old_spte
  let is_present := is_shadow_present_pte new_spte
  let was_last := is_last_spte old_spte level
  let was_leaf := was_present && was_last
  let is_leaf := is_present && is_last_spte new_spte level
  let old_pfn := spte_to_pfn old_spte
  let new_pfn := spte_to_pfn new_spte
  let pfn_changed := old_pfn ≠ new_pfn
  let was_private_zapped := is_private_zapped_spte old_spte
  if was_leaf && is_leaf && pfn_changed then
    { noEffects with bug := true }
  else if old_spte == new_spte then
    { noEffects with returnedNoChange := true }
  else if was_private_zapped && !is_present then
    { noEffects with handledPrivateZapped := true }
  else if !was_present && !is_present then
    { noEffects with returnedNonpresent := true }
  else
    { bug := false
      returnedNoChange := false
      returnedNonpresent := false
      pageStatsDelta := if is_leaf ≠ was_leaf then (if is_leaf then 1 else -1) else 0
      setPfnDirty := was_leaf && is_dirty_spte old_spte &&
        (!is_present || !is_dirty_spte new_spte || pfn_changed)
      handledPrivateZapped := false
      handledRemovedPt := was_present && !was_last &&
        (is_leaf || !is_present || pfn_changed)
      handledRemovedPrivate := is_private && !is_present
      kvmBugPrivateZapRequired := is_private && !is_present &&
        (!shared && is_leaf && !is_private_zapped_spte new_spte)
      setPfnAccessed := was_leaf && is_accessed_spte old_spte &&
        (!is_present || !is_accessed_spte new_spte || pfn_changed) }

/-! ## C2: `tdp_mmu_set_spte_atomic` -/

/-- State visible to one `tdp_mmu_set_spte_atomic` call: the current
value of the entry in memory (`*sptep`), the cursor's last-observed
value (`iter->old_spte`), whether the slot belongs to a private root
(`is_private_sptep`), and bookkeeping counters. -/
structure AtomicSetState where
  entry : Nat
  iterOldSpte : Nat
  isPrivateSptep : Bool
  pageCount : Int
  deriving Repr, DecidableEq

/-- Result of one `tdp_mmu_set_spte_atomic` call: the return code, the
final state, whether any secure-resource-manager call was issued, and
whether the change-bookkeeping routine ran. -/
structure AtomicSetResult where
  ret : Int
  state : AtomicSetState
  tdxCallIssued : Bool
  bookkeepingRan : Bool
  deriving Repr, DecidableEq

/-- Embedding of `set_private_spte_present` (tdp_mmu.c:886-911)
composed with its caller's use.  The C function receives
`iter->old_spte` BY VALUE as `old_spte`; `try_cmpxchg64(sptep,
&old_spte, REMOVED_SPTE)` therefore refreshes only the local copy on
failure, never `iter->old_spte`.  `presentRet` is an oracle for the
result of `__set_private_spte_present` (the external
secure-resource-manager calls). -/
def set_private_spte_present (st : AtomicSetState) (new_spte : Nat)
    (presentRet : Int) : AtomicSetResult :=
  if st.entry ≠ st.iterOldSpte then
    { ret := -EBUSY, state := st, tdxCallIssued := false, bookkeepingRan := false }
  else if presentRet ≠ 0 then
    { ret := presentRet
      state := { st with entry := st.iterOldSpte }
      tdxCallIssued := true
      bookkeepingRan := false }
  else
    { ret := 0
      state := { st with entry := new_spte }
      tdxCallIssued := true
      bookkeepingRan := false }

/-- Embedding of `tdp_mmu_set_spte_atomic` (tdp_mmu.c:930-989).  The
three compare-and-swap paths of the source are reproduced: the
private-present path (delegating to `set_private_spte_present`), the
private-zapping freeze path, and the plain path.  In the two latter
paths `try_cmpxchg64` operates directly on `iter->old_spte` and so
refreshes it on failure. -/
def tdp_mmu_set_spte_atomic (st : AtomicSetState) (new_spte : Nat)
    (presentRet : Int) : AtomicSetResult :=
  if st.isPrivateSptep && !is_removed_spte new_spte then
    if is_shadow_present_pte new_spte then
      let r := set_private_spte_present st new_spte presentRet
      if r.ret ≠ 0 then r
      else { r with bookkeepingRan := true }
    else
      if st.entry ≠ st.iterOldSpte then
        { ret := -EBUSY
          state := { st with iterOldSpte := st.entry }
          tdxCallIssued := false
          bookkeepingRan := false }
      else
        { ret := 0
          state := { st with entry := new_spte }
          tdxCallIssued := false
          bookkeepingRan := true }
  else
    if st.entry ≠ st.iterOldSpte then
      { ret := -EBUSY
        state := { st with iterOldSpte := st.entry }
        tdxCallIssued := false
        bookkeepingRan := false }
    else
      { ret := 0
        state := { st with entry := new_spte }
        tdxCallIssued := false
        bookkeepingRan := true }

/-! ## C9: `kvm_tdp_mmu_get_vcpu_root` -/

/-- A root as seen by the root scan: its full `role.word` (which
includes the private flag, the address-space id and the `invalid`
bit) and its reference count. -/
structure MmuRoot where
  roleWord : Nat
  refcount : Nat
  deriving Repr, DecidableEq

/-- Modelled from the spec: the address-space-id field of a role word
(`kvm_mmu_role_as_id`); equal role words have equal address-space
ids. -/
def kvm_mmu_role_as_id (w : Nat) : Nat := w % 4

/-- Modelled from the spec: `kvm_mmu_page_role_set_private` sets the
private flag bit of a role word. -/
def kvm_mmu_page_role_set_private (w : Nat) : Nat := w ||| 2 ^ 20

/-- Embedding of `kvm_tdp_mmu_get_vcpu_root_no_alloc`
(tdp_mmu.c:269-284): scan the root list in order, skipping roots of a
different address space, and return the first root whose `role.word`
matches exactly and whose reference count can be raised from non-zero
(`kvm_tdp_mmu_get_root` is `refcount_inc_not_zero`).  Returns the
found root (already incremented) and the updated list. -/
def kvm_tdp_mmu_get_vcpu_root_no_alloc (roots : List MmuRoot) (role : Nat) :
    Option MmuRoot × List MmuRoot :=
  match roots with
  | [] => (none, [])
  | r :: rest =>
    if kvm_mmu_role_as_id r.roleWord = kvm_mmu_role_as_id role ∧
       r.roleWord = role ∧ r.refcount ≠ 0 then
      (some { r with refcount := r.refcount + 1 },
       { r with refcount := r.refcount + 1 } :: rest)
    else
      let rec2 := kvm_tdp_mmu_get_vcpu_root_no_alloc rest role
      (rec2.1, r :: rec2.2)

/-- Result of `kvm_tdp_mmu_get_vcpu_root`: the root handed to the
caller, the updated root list, and whether a fresh root was
allocated. -/
structure GetRootResult where
  root : MmuRoot
  roots : List MmuRoot
  allocated : Bool
  deriving Repr, DecidableEq

/-- Embedding of `kvm_tdp_mmu_get_vcpu_root` (tdp_mmu.c:286-323): set
the private flag on the requested role if asked, look for an existing
root, and otherwise allocate a fresh root with reference count
initialized to 2 (one for the vCPU caller, one for the TDP MMU
itself) and link it at the head of the root list (`list_add_rcu`). -/
def kvm_tdp_mmu_get_vcpu_root (roots : List MmuRoot) (baseRole : Nat)
    (isPrivate : Bool) : GetRootResult :=
  let role := if isPrivate then kvm_mmu_page_role_set_private baseRole else baseRole
  let scan := kvm_tdp_mmu_get_vcpu_root_no_alloc roots role
  match scan.1 with
  | some r => { root := r, roots := scan.2, allocated := false }
  | none =>
      let fresh : MmuRoot := { roleWord := role, refcount := 2 }
      { root := fresh, roots := fresh :: scan.2, allocated := true }

/-! ## C6: `tdp_mmu_zap_leafs` and the private-zap policy -/

/-- The three-valued private-page zap policy (`enum tdp_zap_private`,
Documentation/virt/coco/tdx-guest.rst:379-383). -/
inductive TdpZapPrivate where
  | ZAP_PRIVATE_SKIP
  | ZAP_PRIVATE_BLOCK
  | ZAP_PRIVATE_REMOVE
  deriving Repr, DecidableEq

export TdpZapPrivate (ZAP_PRIVATE_SKIP ZAP_PRIVATE_BLOCK ZAP_PRIVATE_REMOVE)

/-- Embedding of `__private_zapped_spte` (tdp_mmu.c:991-996): the
quarantine sentinel keeps the old frame number and huge-page bit and
sets the non-present and private-zapped software bits.  The four
summands occupy disjoint bit ranges (bit 63, bit 62, bits 12..51,
bit 7), so `+` coincides with the source's bitwise or. -/
def __private_zapped_spte (old_spte : Nat) : Nat :=
  SHADOW_NONPRESENT_VALUE + SPTE_PRIVATE_ZAPPED +
    spte_to_pfn old_spte * 2 ^ PAGE_SHIFT +
    (if is_large_pte old_spte then PT_PAGE_SIZE_MASK else 0)

/-- Embedding of `private_zapped_spte` (tdp_mmu.c:998-1007). -/
def private_zapped_spte (sharedMask : Nat) (isPrivateSptep : Bool)
    (old_spte : Nat) : Nat :=
  if sharedMask = 0 then SHADOW_NONPRESENT_VALUE
  else if !isPrivateSptep then SHADOW_NONPRESENT_VALUE
  else __private_zapped_spte old_spte

/-- One leaf slot visited by the zap-leafs walk: its containing level,
its value, and whether it is a huge leaf that the walk would have to
split first (mixed private/shared attributes or a range that cuts the
huge page, tdp_mmu.c:1401-1403 — a predicate over external memslot
state, taken as an input here). -/
structure ZapSlot where
  level : Nat
  spte : Nat
  needsSplit : Bool
  deriving Repr, DecidableEq

/-- What one iteration of the `tdp_mmu_zap_leafs` loop does to a
slot. -/
inductive ZapAction where
  | unchanged
  | written (v : Nat)
  | splitLarge
  deriving Repr, DecidableEq

/-- Embedding of one iteration of the `tdp_mmu_zap_leafs` walk body
(tdp_mmu.c:1375-1447) on one slot, yield checkpoints aside. -/
def tdp_mmu_zap_leafs_step (sharedMask : Nat) (isPrivateRoot : Bool)
    (zap_private : TdpZapPrivate) (slot : ZapSlot) : ZapAction :=
  if !is_last_spte slot.spte slot.level then .unchanged
  else if !is_shadow_present_pte slot.spte && !is_private_zapped_spte slot.spte then
    .unchanged
  else if isPrivateRoot && sharedMask ≠ 0 && is_large_pte slot.spte &&
      slot.needsSplit then
    .splitLarge
  else if (zap_private = ZAP_PRIVATE_SKIP ∨ zap_private = ZAP_PRIVATE_BLOCK) ∧
      is_private_zapped_spte slot.spte then
    .unchanged
  else
    .written (if zap_private = ZAP_PRIVATE_REMOVE then SHADOW_NONPRESENT_VALUE
              else private_zapped_spte sharedMask isPrivateRoot slot.spte)

/-- Embedding of `tdp_mmu_zap_leafs` (tdp_mmu.c:1348-1468) over the
list of slots the range walk visits: the early return for the skip
policy on a private root, then the per-slot transform, accumulating
the TLB-flush-needed flag. -/
def tdp_mmu_zap_leafs (sharedMask : Nat) (isPrivateRoot : Bool)
    (slots : List ZapSlot) (flush : Bool) (zap_private : TdpZapPrivate) :
    List ZapSlot × Bool :=
  if zap_private = ZAP_PRIVATE_SKIP ∧ isPrivateRoot then (slots, flush)
  else
    (slots.map (fun s =>
       match tdp_mmu_zap_leafs_step sharedMask isPrivateRoot zap_private s with
       | .written v => { s with spte := v }
       | _ => s),
     flush || slots.any (fun s =>
       match tdp_mmu_zap_leafs_step sharedMask isPrivateRoot zap_private s with
       | .written _ => true
       | _ => false))

/-! ## C10: `kvm_tdp_mmu_handle_gfn` and the notifier range operations -/

/-- One root as seen by the notifier walk: private flag,
address-space id, and the leaf slots the range walk would visit, as
(level, value) pairs. -/
structure NotifierRoot where
  isPrivate : Bool
  asId : Nat
  leaves : List (Nat × Nat)
  deriving Repr, DecidableEq

/-- The `tdp_root_for_each_leaf_pte` filter (tdp_mmu.c:1101-1107): a
slot is visited when it is present or a temporarily-blocked private
sentinel, and is a last-level entry. -/
def leaf_pte_visited (level spte : Nat) : Bool :=
  (is_shadow_present_pte spte || is_private_zapped_spte spte) &&
    is_last_spte spte level

/-- Apply a notifier handler to every visited leaf of one root,
or-accumulating the handler's boolean results
(tdp_mmu.c:2055-2056). -/
def handle_gfn_root (handler : Nat → Nat → Nat × Bool)
    (leaves : List (Nat × Nat)) : List (Nat × Nat) × Bool :=
  (leaves.map (fun l =>
     if leaf_pte_visited l.1 l.2 then (l.1, (handler l.1 l.2).1) else l),
   leaves.any (fun l => leaf_pte_visited l.1 l.2 && (handler l.1 l.2).2))

/-- The treatment of one root by `kvm_tdp_mmu_handle_gfn`
(tdp_mmu.c:2022-2062): roots of another address space are skipped by
the iteration macro, private roots are skipped explicitly
(tdp_mmu.c:2042-2043), all other roots get the handler applied to
their visited leaves. -/
def handle_gfn_root_update (asId : Nat) (handler : Nat → Nat → Nat × Bool)
    (r : NotifierRoot) : NotifierRoot :=
  if r.asId ≠ asId then r
  else if r.isPrivate then r
  else { r with leaves := (handle_gfn_root handler r.leaves).1 }

/-- Embedding of `kvm_tdp_mmu_handle_gfn` (tdp_mmu.c:2022-2062). -/
def kvm_tdp_mmu_handle_gfn (asId : Nat) (roots : List NotifierRoot)
    (handler : Nat → Nat → Nat × Bool) : List NotifierRoot × Bool :=
  (roots.map (handle_gfn_root_update asId handler),
   roots.any (fun r =>
     if r.asId ≠ asId then false
     else if r.isPrivate then false
     else (handle_gfn_root handler r.leaves).2))

/-- Embedding of the `age_gfn_range` handler (tdp_mmu.c:2072-2104):
a non-accessed entry is left alone and contributes `false`; an
accessed entry has its accessed state cleared and contributes
`true` (the access-tracking variant for no-A/D-bit sptes is modelled
from the spec as the same accessed-state clearing). -/
def age_gfn_range (level spte : Nat) : Nat × Bool :=
  if !is_accessed_spte spte then (spte, false)
  else (spte - shadow_accessed_mask, true)

/-- Embedding of the `test_age_gfn` handler (tdp_mmu.c:2111-2115):
report whether the entry is accessed, changing nothing. -/
def test_age_gfn (level spte : Nat) : Nat × Bool :=
  (spte, is_accessed_spte spte)

/-- Embedding of the `set_spte_gfn` handler (tdp_mmu.c:2122-2150):
only 4K present leaves are remapped; the slot is first zapped (for a
non-private slot `private_zapped_spte` degenerates to the plain
non-present value) and, when the new host pte is read-only, the
remapped value (built by `kvm_mmu_changed_pte_notifier_make_spte`,
external) is installed. -/
def set_spte_gfn (sharedMask newSpte : Nat) (hostWritable : Bool)
    (level spte : Nat) : Nat × Bool :=
  if level ≠ 1 ∨ is_shadow_present_pte spte = false then (spte, false)
  else if hostWritable then (private_zapped_spte sharedMask false spte, true)
  else (newSpte, true)

/-- Embedding of `kvm_tdp_mmu_age_gfn_range` (tdp_mmu.c:2106-2109). -/
def kvm_tdp_mmu_age_gfn_range (asId : Nat) (roots : List NotifierRoot) :
    List NotifierRoot × Bool :=
  kvm_tdp_mmu_handle_gfn asId roots age_gfn_range

/-- Embedding of `kvm_tdp_mmu_test_age_gfn` (tdp_mmu.c:2117-2120). -/
def kvm_tdp_mmu_test_age_gfn (asId : Nat) (roots : List NotifierRoot) :
    List NotifierRoot × Bool :=
  kvm_tdp_mmu_handle_gfn asId roots test_age_gfn

/-- Embedding of `kvm_tdp_mmu_set_spte_gfn` (tdp_mmu.c:2158-2166). -/
def kvm_tdp_mmu_set_spte_gfn (sharedMask newSpte : Nat) (hostWritable : Bool)
    (asId : Nat) (roots : List NotifierRoot) : List NotifierRoot × Bool :=
  kvm_tdp_mmu_handle_gfn asId roots (set_spte_gfn sharedMask newSpte hostWritable)

/-! ## C4 and C5: `tdp_mmu_merge_private_spt` and
`tdp_mmu_split_huge_page` -/

/-- Modelled from the spec: replace the frame-number field
(bits 12..51) of an SPTE, keeping the low flag bits (0..11) and the
high software bits (52..63). -/
def with_pfn (s p : Nat) : Nat :=
  s / 2 ^ 52 * 2 ^ 52 + p % 2 ^ 40 * 2 ^ PAGE_SHIFT + s % 2 ^ PAGE_SHIFT

/-- Modelled from the spec: `make_huge_page_split_spte` (spte.c, not
in the provided sources) derives child entry `i` of a huge entry from
the huge entry's frame and flags plus the index: the frame advances by
`i` child-sized steps and, when the child is a 4K leaf, the huge-page
bit is dropped. -/
def make_huge_page_split_spte (hugeSpte : Nat) (childLevel i : Nat) : Nat :=
  let base := with_pfn hugeSpte
    (spte_to_pfn hugeSpte + i * KVM_PAGES_PER_HPAGE childLevel)
  if childLevel = 1 then
    (if is_large_pte base then base - PT_PAGE_SIZE_MASK else base)
  else base

/-- Modelled from the spec: `make_nonleaf_spte` (spte.c, not in the
provided sources) builds a present non-leaf entry linking a child
table page: present, read/write/execute permissions, huge-page bit
clear. -/
def make_nonleaf_spte (childTablePfn : Nat) : Nat :=
  2 ^ SPTE_MMU_PRESENT_BIT + childTablePfn % 2 ^ 40 * 2 ^ PAGE_SHIFT + 7

/-- Clear the accessed and dirty bits of an SPTE (the "modulo
accessed/dirty bits" comparison of the split/merge round-trip
property). -/
def clear_ad_bits (s : Nat) : Nat :=
  let t := if s.testBit 8 then s - shadow_accessed_mask else s
  if t.testBit 9 then t - shadow_dirty_mask else t

/-- Embedding of `tdp_mmu_split_huge_page` (tdp_mmu.c:2307-2343): the
512 child slots are populated by `make_huge_page_split_spte` and the
huge entry is replaced by a non-leaf link to the new child table.
Returns the child table contents and the new parent value. -/
def tdp_mmu_split_huge_page (hugeSpte childTablePfn : Nat) :
    (Nat → Nat) × Nat :=
  (fun i => make_huge_page_split_spte hugeSpte 1 i,
   make_nonleaf_spte childTablePfn)

/-- Embedding of the child-population loop of
`tdp_mmu_merge_private_spt` (tdp_mmu.c:1635-1683).  Arguments: the
loop index `i`, the remaining iteration count `rem`, the child table
contents and the accumulated `ret`.  `casChild i` is an oracle for the
result of `tdp_mmu_set_spte_atomic` on child `i` (0 on success,
`-EBUSY` on a lost race, other codes for hard failures); on success
the child slot receives `make_huge_page_split_spte new_spte role i` as
in the source.  Returns the final children, the accumulated `ret`,
and whether the loop aborted with a hard error (`goto out`). -/
def tdp_mmu_merge_child_loop (newSpte baseGfn faultGfn : Nat)
    (casChild : Nat → Int) (i rem : Nat) (children : Nat → Nat) (ret : Int) :
    (Nat → Nat) × Int × Bool :=
  match rem with
  | 0 => (children, ret, false)
  | rem' + 1 =>
    let c := children i
    if is_shadow_present_pte c then
      if spte_to_pfn c ≠ spte_to_pfn newSpte + i then
        tdp_mmu_merge_child_loop newSpte baseGfn faultGfn casChild (i + 1) rem'
          children (if ret = 0 then -EAGAIN else ret)
      else if baseGfn + i = faultGfn then
        tdp_mmu_merge_child_loop newSpte baseGfn faultGfn casChild (i + 1) rem'
          children (if ret = 0 then -EAGAIN else ret)
      else
        tdp_mmu_merge_child_loop newSpte baseGfn faultGfn casChild (i + 1) rem'
          children ret
    else
      let tmp := casChild i
      if tmp = -EBUSY ∨ tmp = -EAGAIN then
        tdp_mmu_merge_child_loop newSpte baseGfn faultGfn casChild (i + 1) rem'
          children (if ret = 0 then tmp else ret)
      else if tmp ≠ 0 then
        (children, tmp, true)
      else
        tdp_mmu_merge_child_loop newSpte baseGfn faultGfn casChild (i + 1) rem'
          (fun j => if j = i then make_huge_page_split_spte newSpte 1 i else
            children j) ret

/-- Observable outcome of `tdp_mmu_merge_private_spt`: the return
code, the final parent slot value (`*sptep`), the final
`iter->old_spte`, whether the merge completed (huge entry installed
and child table freed), and the final child table contents. -/
structure MergeResult where
  ret : Int
  parentEntry : Nat
  iterOldSpte : Nat
  merged : Bool
  children : Nat → Nat

/-- Embedding of `tdp_mmu_merge_private_spt` (tdp_mmu.c:1588-1723):
freeze the parent slot by compare-and-swap against the last observed
value `oldSpte` (`memEntry` is the current memory value); populate all
children; quarantine (`zap`) the secure entry; call the external merge
primitive; on success install the huge `newSpte` and return `-EAGAIN`;
on any failure after the freeze restore `old_spte` — which the
merge-failure path first replaces by its private-zapped form when the
unquarantine call also fails (tdp_mmu.c:1701-1705). -/
def tdp_mmu_merge_private_spt (memEntry oldSpte newSpte baseGfn faultGfn : Nat)
    (children : Nat → Nat) (casChild : Nat → Int)
    (zapRet mergeRet unzapRet : Int) : MergeResult :=
  if memEntry ≠ oldSpte then
    { ret := -EBUSY, parentEntry := memEntry, iterOldSpte := memEntry,
      merged := false, children := children }
  else
    let loop := tdp_mmu_merge_child_loop newSpte baseGfn faultGfn casChild
      0 SPTE_ENT_PER_PAGE children 0
    let ret1 := loop.2.1
    if ret1 ≠ 0 then
      { ret := ret1, parentEntry := oldSpte, iterOldSpte := oldSpte,
        merged := false, children := loop.1 }
    else if zapRet ≠ 0 then
      { ret := zapRet, parentEntry := oldSpte, iterOldSpte := oldSpte,
        merged := false, children := loop.1 }
    else if mergeRet ≠ 0 then
      if unzapRet ≠ 0 then
        { ret := mergeRet, parentEntry := __private_zapped_spte oldSpte,
          iterOldSpte := __private_zapped_spte oldSpte, merged := false,
          children := loop.1 }
      else
        { ret := mergeRet, parentEntry := oldSpte, iterOldSpte := oldSpte,
          merged := false, children := loop.1 }
    else
      { ret := -EAGAIN, parentEntry := newSpte, iterOldSpte := newSpte,
        merged := true, children := loop.1 }

/-- The split-then-merge round trip: split a huge entry into a child
table, then run the private merge on the resulting parent slot and
children with a caller-chosen huge target `newSpte`. -/
def split_merge_roundtrip (hugeSpte childTablePfn newSpte baseGfn faultGfn : Nat)
    (casChild : Nat → Int) (zapRet mergeRet unzapRet : Int) : MergeResult :=
  let split := tdp_mmu_split_huge_page hugeSpte childTablePfn
  tdp_mmu_merge_private_spt split.2 split.2 newSpte baseGfn faultGfn split.1
    casChild zapRet mergeRet unzapRet

end TdpMmu

namespace TdpMmu

/-! ## Theorems for C8, C3, C7 -/

/-- C8: if the cursor's next-last-level frame equals its saved yielded
checkpoint frame, `tdp_mmu_iter_cond_resched` returns `false`, leaves
the cursor (including its `yielded` flag) unchanged, and issues no
TLB flush — regardless of scheduler or lock contention pressure. -/
theorem C8_cond_resched_no_progress_no_yield
    (iter : TdpIter) (flush needResched contended : Bool)
    (h : iter.next_last_level_gfn = iter.yielded_gfn) :
    tdp_mmu_iter_cond_resched iter flush needResched contended =
      { returned := false, iter := iter, flushed := false } := by
  unfold tdp_mmu_iter_cond_resched
  simp [h]

/-- Witness for C8 at a concrete cursor. -/
theorem C8_cond_resched_no_progress_no_yield_witness :
    tdp_mmu_iter_cond_resched
      { next_last_level_gfn := 5, yielded_gfn := 5, gfn := 5, level := 1,
        old_spte := 0, yielded := false } true true true =
      { returned := false
        iter := { next_last_level_gfn := 5, yielded_gfn := 5, gfn := 5,
                  level := 1, old_spte := 0, yielded := false }
        flushed := false } :=
  C8_cond_resched_no_progress_no_yield
    { next_last_level_gfn := 5, yielded_gfn := 5, gfn := 5, level := 1,
      old_spte := 0, yielded := false } true true true rfl

/-- C3: when `kvm_tdp_mmu_put_root` decrements the reference count to
zero, the root is unlinked and scheduled for deferred reclamation, and
if the root had not been marked invalid the logic-error assertion
fires; when the count stays positive the root is neither unlinked nor
scheduled for freeing. -/
theorem C3_put_root_zero_requires_invalid
    (root : RootPage) (_hpos : 0 < root.tdp_mmu_root_count) :
    (root.tdp_mmu_root_count = 1 →
      (kvm_tdp_mmu_put_root root).unlinked = true ∧
      (kvm_tdp_mmu_put_root root).scheduledFree = true ∧
      (root.tdp_mmu_page = true → root.invalid = false →
        (kvm_tdp_mmu_put_root root).kvmBug = true) ∧
      (root.invalid = true → root.tdp_mmu_page = true →
        (kvm_tdp_mmu_put_root root).kvmBug = false)) ∧
    (1 < root.tdp_mmu_root_count →
      (kvm_tdp_mmu_put_root root).unlinked = false ∧
      (kvm_tdp_mmu_put_root root).scheduledFree = false ∧
      (kvm_tdp_mmu_put_root root).kvmBug = false ∧
      (kvm_tdp_mmu_put_root root).count = root.tdp_mmu_root_count - 1) := by
  constructor
  · intro h1
    unfold kvm_tdp_mmu_put_root
    simp [h1]
    exact ⟨fun _ hinv => Or.inr hinv, fun hinv hpg => ⟨hpg, hinv⟩⟩
  · intro h2
    unfold kvm_tdp_mmu_put_root
    have : root.tdp_mmu_root_count - 1 ≠ 0 := by omega
    simp [this]

/-- Witness for C3 at a concrete valid root with count 1 (assertion
fires) packaged with the hypothesis discharged. -/
theorem C3_put_root_zero_requires_invalid_witness :
    ((kvm_tdp_mmu_put_root
        { tdp_mmu_root_count := 1, invalid := false, tdp_mmu_page := true }).kvmBug
      = true) ∧
    ((kvm_tdp_mmu_put_root
        { tdp_mmu_root_count := 3, invalid := false, tdp_mmu_page := true }).unlinked
      = false) := by
  refine ⟨?_, ?_⟩
  · exact ((C3_put_root_zero_requires_invalid
      { tdp_mmu_root_count := 1, invalid := false, tdp_mmu_page := true }
      (by decide)).1 rfl).2.2.1 rfl rfl
  · exact ((C3_put_root_zero_requires_invalid
      { tdp_mmu_root_count := 3, invalid := false, tdp_mmu_page := true }
      (by decide)).2 (by decide)).1

/-- Helper: replacing the frame field (with the 4K-leaf huge-bit
adjustment of `make_huge_page_split_spte`) installs exactly the
requested frame and preserves the present bit. -/
theorem with_pfn_adjust_spec (s p : Nat) (hp : p < 2 ^ 40) :
    spte_to_pfn (if is_large_pte (with_pfn s p) then
        with_pfn s p - PT_PAGE_SIZE_MASK else with_pfn s p) = p ∧
    is_shadow_present_pte (if is_large_pte (with_pfn s p) then
        with_pfn s p - PT_PAGE_SIZE_MASK else with_pfn s p) =
      is_shadow_present_pte s := by
  unfold spte_to_pfn is_shadow_present_pte is_large_pte with_pfn
    PT_PAGE_SIZE_MASK PAGE_SHIFT SPTE_MMU_PRESENT_BIT
  simp only [Nat.testBit_to_div_mod, decide_eq_true_eq, decide_eq_decide]
  have hs : s % 2 ^ 12 < 2 ^ 12 := Nat.mod_lt _ (by norm_num)
  split
  · next hlarge => constructor <;> omega
  · next hlarge => constructor <;> omega

/-- Helper: child `i` produced by `make_huge_page_split_spte` at the
4K level maps frame `pfn(huge) + i` and has the same present bit as
the huge entry. -/
theorem make_huge_page_split_spte_spec (s i : Nat)
    (h : spte_to_pfn s + i < 2 ^ 40) :
    spte_to_pfn (make_huge_page_split_spte s 1 i) = spte_to_pfn s + i ∧
    is_shadow_present_pte (make_huge_page_split_spte s 1 i) =
      is_shadow_present_pte s := by
  have := with_pfn_adjust_spec s (spte_to_pfn s + i * KVM_PAGES_PER_HPAGE 1)
    (by simpa [KVM_PAGES_PER_HPAGE, SPTE_ENT_PER_PAGE] using h)
  simpa [make_huge_page_split_spte, KVM_PAGES_PER_HPAGE,
    SPTE_ENT_PER_PAGE] using this

/-- Helper: the child-population loop of the merge finishes with
`ret = 0` and no abort when every visited slot is either a present
child with the matching contiguous frame away from the faulting gfn,
or a non-present child whose atomic population succeeds.  `ch0` is
the child table as it stands at loop entry; the invariant carries the
fact that slots at or beyond the loop index are still untouched. -/
theorem merge_child_loop_all_ok (newSpte baseGfn faultGfn : Nat)
    (casChild : Nat → Int) (ch0 : Nat → Nat) :
    ∀ rem i (ch : Nat → Nat),
      (∀ j, i ≤ j → ch j = ch0 j) →
      (∀ j, i ≤ j → j < i + rem →
        (if is_shadow_present_pte (ch0 j) = true then
          spte_to_pfn (ch0 j) = spte_to_pfn newSpte + j ∧ baseGfn + j ≠ faultGfn
         else casChild j = 0)) →
      (tdp_mmu_merge_child_loop newSpte baseGfn faultGfn casChild i rem ch
        0).2.1 = 0 := by
  intro rem
  induction rem with
  | zero => intro i ch hch hok; rfl
  | succ rem ih =>
    intro i ch hch hok
    have hc : ch i = ch0 i := hch i (le_refl i)
    have hoki := hok i (le_refl i) (by omega)
    simp only [tdp_mmu_merge_child_loop]
    rw [hc]
    by_cases hp : is_shadow_present_pte (ch0 i) = true
    · rw [if_pos hp] at hoki
      rw [if_pos hp]
      rw [if_neg (by simp [hoki.1]), if_neg hoki.2]
      exact ih (i + 1) ch (fun j hj => hch j (by omega))
        (fun j hj1 hj2 => hok j (by omega) (by omega))
    · rw [if_neg hp] at hoki
      rw [if_neg (by simpa using hp)]
      rw [hoki]
      rw [if_neg (by unfold EBUSY EAGAIN; omega)]
      rw [if_neg (by omega)]
      refine ih (i + 1) _ (fun j hj => ?_) (fun j hj1 hj2 => hok j (by omega) (by omega))
      have : j ≠ i := by omega
      simp [this]
      exact hch j (by omega)

/-- Helper: the quarantine sentinel built by `__private_zapped_spte`
retains the old entry's frame number. -/
theorem private_zapped_retains_pfn (s : Nat) :
    spte_to_pfn (__private_zapped_spte s) = spte_to_pfn s := by
  unfold __private_zapped_spte spte_to_pfn SHADOW_NONPRESENT_VALUE
    SPTE_PRIVATE_ZAPPED PAGE_SHIFT PT_PAGE_SIZE_MASK
  have h : s / 2 ^ 12 % 2 ^ 40 < 2 ^ 40 := Nat.mod_lt _ (by norm_num)
  split <;> norm_num <;> omega

/-- C6: the zap-leafs range operation obeys the three-valued private
policy: with the skip policy a private root is returned untouched with
the incoming flush flag; with the quarantine/block policy a present
private leaf (not requiring a prior huge-page split) becomes the
private-zapped sentinel retaining its frame number; with the remove
policy any present or private-zapped private leaf becomes the plain
non-present value. -/
theorem C6_zap_leafs_private_policy
    (sharedMask : Nat) (slots : List ZapSlot) (flush : Bool) (slot : ZapSlot) :
    (tdp_mmu_zap_leafs sharedMask true slots flush ZAP_PRIVATE_SKIP =
      (slots, flush)) ∧
    (sharedMask ≠ 0 →
     is_last_spte slot.spte slot.level = true →
     is_shadow_present_pte slot.spte = true →
     is_private_zapped_spte slot.spte = false →
     slot.needsSplit = false →
      tdp_mmu_zap_leafs_step sharedMask true ZAP_PRIVATE_BLOCK slot =
        ZapAction.written (__private_zapped_spte slot.spte) ∧
      spte_to_pfn (__private_zapped_spte slot.spte) = spte_to_pfn slot.spte) ∧
    (is_last_spte slot.spte slot.level = true →
     (is_shadow_present_pte slot.spte = true ∨
        is_private_zapped_spte slot.spte = true) →
     slot.needsSplit = false →
      tdp_mmu_zap_leafs_step sharedMask true ZAP_PRIVATE_REMOVE slot =
        ZapAction.written SHADOW_NONPRESENT_VALUE) := by
  refine ⟨?_, ?_, ?_⟩
  · unfold tdp_mmu_zap_leafs
    simp
  · intro hmask hlast hpresent hnz hns
    refine ⟨?_, private_zapped_retains_pfn slot.spte⟩
    unfold tdp_mmu_zap_leafs_step
    simp [hlast, hpresent, hnz, hns, private_zapped_spte, hmask]
  · intro hlast hpz hns
    unfold tdp_mmu_zap_leafs_step
    rcases hpz with hp | hp <;> simp [hlast, hp, hns]

/-- Witness for C6: a private root holding one present 4K private leaf
for frame 9 — skip leaves it alone, block writes the frame-retaining
sentinel, remove writes the plain non-present value. -/
theorem C6_zap_leafs_private_policy_witness :
    (tdp_mmu_zap_leafs 1024 true
        [{ level := 1, spte := 2 ^ 11 + 9 * 2 ^ 12, needsSplit := false }]
        false ZAP_PRIVATE_SKIP =
      ([{ level := 1, spte := 2 ^ 11 + 9 * 2 ^ 12, needsSplit := false }], false)) ∧
    (tdp_mmu_zap_leafs_step 1024 true ZAP_PRIVATE_BLOCK
        { level := 1, spte := 2 ^ 11 + 9 * 2 ^ 12, needsSplit := false } =
      ZapAction.written (__private_zapped_spte (2 ^ 11 + 9 * 2 ^ 12))) ∧
    (tdp_mmu_zap_leafs_step 1024 true ZAP_PRIVATE_REMOVE
        { level := 1, spte := 2 ^ 11 + 9 * 2 ^ 12, needsSplit := false } =
      ZapAction.written SHADOW_NONPRESENT_VALUE) := by
  refine ⟨?_, ?_, ?_⟩
  · exact (C6_zap_leafs_private_policy 1024
      [{ level := 1, spte := 2 ^ 11 + 9 * 2 ^ 12, needsSplit := false }] false
      { level := 1, spte := 2 ^ 11 + 9 * 2 ^ 12, needsSplit := false }).1
  · exact ((C6_zap_leafs_private_policy 1024 [] false
      { level := 1, spte := 2 ^ 11 + 9 * 2 ^ 12, needsSplit := false }).2.1
      (by decide) (by decide) (by decide) (by decide) rfl).1
  · exact (C6_zap_leafs_private_policy 1024 [] false
      { level := 1, spte := 2 ^ 11 + 9 * 2 ^ 12, needsSplit := false }).2.2
      (by decide) (Or.inl (by decide)) rfl

/-- Helper: the common notifier handler leaves every private root
untouched and computes its boolean from non-private matching roots
only, whatever the per-leaf handler does. -/
theorem handle_gfn_skips_private (asId : Nat) (roots : List NotifierRoot)
    (handler : Nat → Nat → Nat × Bool) :
    (∀ p ∈ roots.zip (kvm_tdp_mmu_handle_gfn asId roots handler).1,
       p.1.isPrivate = true → p.2 = p.1) ∧
    ((kvm_tdp_mmu_handle_gfn asId roots handler).2 =
      roots.any (fun r => decide (r.asId = asId) && !r.isPrivate &&
        (handle_gfn_root handler r.leaves).2)) := by
  constructor
  · intro p hp hpriv
    have hz : ∀ l : List NotifierRoot,
        l.zip (l.map (handle_gfn_root_update asId handler)) =
          l.map (fun a => (a, handle_gfn_root_update asId handler a)) := by
      intro l
      induction l with
      | nil => rfl
      | cons x xs ih => simp [ih]
    simp only [kvm_tdp_mmu_handle_gfn] at hp
    rw [hz roots] at hp
    rcases List.mem_map.mp hp with ⟨a, _, rfl⟩
    simp only [id] at hpriv ⊢
    unfold handle_gfn_root_update
    split
    · rfl
    · simp [hpriv]
  · simp only [kvm_tdp_mmu_handle_gfn]
    have hfun : (fun r : NotifierRoot =>
        if r.asId ≠ asId then false
        else if r.isPrivate then false
        else (handle_gfn_root handler r.leaves).2) =
        (fun r : NotifierRoot => decide (r.asId = asId) && !r.isPrivate &&
          (handle_gfn_root handler r.leaves).2) := by
      funext r
      by_cases h1 : r.asId = asId <;> by_cases h2 : r.isPrivate <;> simp [h1, h2]
    rw [hfun]

/-- C10: the reclaim-notifier range operations routed through
`kvm_tdp_mmu_handle_gfn` — age, test-age, and force-remap — leave
every private root (hence the whole private subtree) unchanged, and
their returned boolean is accumulated from non-private roots of the
range's address space only. -/
theorem C10_notifier_skips_private_roots
    (asId sharedMask newSpte : Nat) (hostWritable : Bool)
    (roots : List NotifierRoot) :
    ((∀ p ∈ roots.zip (kvm_tdp_mmu_age_gfn_range asId roots).1,
        p.1.isPrivate = true → p.2 = p.1) ∧
     (kvm_tdp_mmu_age_gfn_range asId roots).2 =
       roots.any (fun r => decide (r.asId = asId) && !r.isPrivate &&
         (handle_gfn_root age_gfn_range r.leaves).2)) ∧
    ((∀ p ∈ roots.zip (kvm_tdp_mmu_test_age_gfn asId roots).1,
        p.1.isPrivate = true → p.2 = p.1) ∧
     (kvm_tdp_mmu_test_age_gfn asId roots).2 =
       roots.any (fun r => decide (r.asId = asId) && !r.isPrivate &&
         (handle_gfn_root test_age_gfn r.leaves).2)) ∧
    ((∀ p ∈ roots.zip
        (kvm_tdp_mmu_set_spte_gfn sharedMask newSpte hostWritable asId roots).1,
        p.1.isPrivate = true → p.2 = p.1) ∧
     (kvm_tdp_mmu_set_spte_gfn sharedMask newSpte hostWritable asId roots).2 =
       roots.any (fun r => decide (r.asId = asId) && !r.isPrivate &&
         (handle_gfn_root (set_spte_gfn sharedMask newSpte hostWritable)
           r.leaves).2)) :=
  ⟨handle_gfn_skips_private asId roots age_gfn_range,
   handle_gfn_skips_private asId roots test_age_gfn,
   handle_gfn_skips_private asId roots
     (set_spte_gfn sharedMask newSpte hostWritable)⟩

/-- Witness for C10: a single private root holding one present,
accessed 4K leaf is returned unchanged by all three operations. -/
theorem C10_notifier_skips_private_roots_witness :
    ((({ isPrivate := true, asId := 0, leaves := [(1, 2 ^ 11 + 2 ^ 8)] } :
        NotifierRoot),
      ({ isPrivate := true, asId := 0, leaves := [(1, 2 ^ 11 + 2 ^ 8)] } :
        NotifierRoot)).2 =
     (({ isPrivate := true, asId := 0, leaves := [(1, 2 ^ 11 + 2 ^ 8)] } :
        NotifierRoot),
      ({ isPrivate := true, asId := 0, leaves := [(1, 2 ^ 11 + 2 ^ 8)] } :
        NotifierRoot)).1) ∧
    ((kvm_tdp_mmu_test_age_gfn 0
        [{ isPrivate := true, asId := 0, leaves := [(1, 2 ^ 11 + 2 ^ 8)] }]).2 =
      [({ isPrivate := true, asId := 0, leaves := [(1, 2 ^ 11 + 2 ^ 8)] } :
        NotifierRoot)].any (fun r => decide (r.asId = 0) && !r.isPrivate &&
          (handle_gfn_root test_age_gfn r.leaves).2)) := by
  refine ⟨?_, ?_⟩
  · exact ((C10_notifier_skips_private_roots 0 0 0 false
      [{ isPrivate := true, asId := 0, leaves := [(1, 2 ^ 11 + 2 ^ 8)] }]).1).1
      ({ isPrivate := true, asId := 0, leaves := [(1, 2 ^ 11 + 2 ^ 8)] },
       { isPrivate := true, asId := 0, leaves := [(1, 2 ^ 11 + 2 ^ 8)] })
      (by decide) rfl
  · exact ((C10_notifier_skips_private_roots 0 0 0 false
      [{ isPrivate := true, asId := 0, leaves := [(1, 2 ^ 11 + 2 ^ 8)] }]).2.1).2

/-- C4 (counterexample): a merge that freezes the parent, populates
all children successfully and quarantines the secure entry, but whose
external merge call fails and whose subsequent unquarantine call also
fails, does NOT restore the parent slot to its original pre-merge
value: the slot is left holding the private-zapped form of the
original entry instead (tdp_mmu.c:1701-1705). -/
theorem C4_merge_restore_failure_counterexample :
    (tdp_mmu_merge_private_spt (2 ^ 11 + 3 * 2 ^ 12) (2 ^ 11 + 3 * 2 ^ 12)
        (2 ^ 11 + 2 ^ 7 + 256 * 2 ^ 12) 4096 4096
        (fun j => if j = 0 then SHADOW_NONPRESENT_VALUE
                  else 2 ^ 11 + (256 + j) * 2 ^ 12)
        (fun _ => 0) 0 (-5) (-1)).merged = false ∧
    (tdp_mmu_merge_private_spt (2 ^ 11 + 3 * 2 ^ 12) (2 ^ 11 + 3 * 2 ^ 12)
        (2 ^ 11 + 2 ^ 7 + 256 * 2 ^ 12) 4096 4096
        (fun j => if j = 0 then SHADOW_NONPRESENT_VALUE
                  else 2 ^ 11 + (256 + j) * 2 ^ 12)
        (fun _ => 0) 0 (-5) (-1)).parentEntry =
      __private_zapped_spte (2 ^ 11 + 3 * 2 ^ 12) ∧
    (tdp_mmu_merge_private_spt (2 ^ 11 + 3 * 2 ^ 12) (2 ^ 11 + 3 * 2 ^ 12)
        (2 ^ 11 + 2 ^ 7 + 256 * 2 ^ 12) 4096 4096
        (fun j => if j = 0 then SHADOW_NONPRESENT_VALUE
                  else 2 ^ 11 + (256 + j) * 2 ^ 12)
        (fun _ => 0) 0 (-5) (-1)).parentEntry ≠ 2 ^ 11 + 3 * 2 ^ 12 := by
  refine ⟨by decide, by decide, by decide⟩

/-- C4 (amended): whenever the freeze compare-and-swap succeeded and
the merge did not complete, the parent slot is restored to its
original pre-merge value — except in the one case where the external
merge call failed and the subsequent unquarantine also failed, in
which case the slot holds the private-zapped (non-present,
frame-retaining) form of the original value. -/
theorem C4_merge_all_or_nothing_amended
    (memEntry oldSpte newSpte baseGfn faultGfn : Nat)
    (children : Nat → Nat) (casChild : Nat → Int)
    (zapRet mergeRet unzapRet : Int)
    (hfreeze : memEntry = oldSpte) :
    (tdp_mmu_merge_private_spt memEntry oldSpte newSpte baseGfn faultGfn
        children casChild zapRet mergeRet unzapRet).merged = false →
    ((tdp_mmu_merge_private_spt memEntry oldSpte newSpte baseGfn faultGfn
        children casChild zapRet mergeRet unzapRet).parentEntry = oldSpte ∨
     (mergeRet ≠ 0 ∧ unzapRet ≠ 0 ∧
      (tdp_mmu_merge_private_spt memEntry oldSpte newSpte baseGfn faultGfn
        children casChild zapRet mergeRet unzapRet).parentEntry =
        __private_zapped_spte oldSpte)) := by
  subst hfreeze
  simp only [tdp_mmu_merge_private_spt]
  rw [if_neg (by simp)]
  split
  · intro _; exact Or.inl rfl
  · split
    · intro _; exact Or.inl rfl
    · split
      · next hmerge =>
        split
        · next hunzap => intro _; exact Or.inr ⟨hmerge, hunzap, rfl⟩
        · intro _; exact Or.inl rfl
      · intro h; simp at h

/-- Witness for C4 at the concrete failing oracle (merge and unzap
both fail): the disjunction resolves to the private-zapped form. -/
theorem C4_merge_all_or_nothing_amended_witness :
    (tdp_mmu_merge_private_spt (2 ^ 11 + 5 * 2 ^ 12) (2 ^ 11 + 5 * 2 ^ 12)
        (2 ^ 11 + 2 ^ 7 + 512 * 2 ^ 12) 0 0
        (fun _ => SHADOW_NONPRESENT_VALUE) (fun _ => 0) 0 (-5) 0).parentEntry =
      2 ^ 11 + 5 * 2 ^ 12 ∨
    ((-5 : Int) ≠ 0 ∧ (0 : Int) ≠ 0 ∧
     (tdp_mmu_merge_private_spt (2 ^ 11 + 5 * 2 ^ 12) (2 ^ 11 + 5 * 2 ^ 12)
        (2 ^ 11 + 2 ^ 7 + 512 * 2 ^ 12) 0 0
        (fun _ => SHADOW_NONPRESENT_VALUE) (fun _ => 0) 0 (-5) 0).parentEntry =
      __private_zapped_spte (2 ^ 11 + 5 * 2 ^ 12)) :=
  C4_merge_all_or_nothing_amended (2 ^ 11 + 5 * 2 ^ 12) (2 ^ 11 + 5 * 2 ^ 12)
    (2 ^ 11 + 2 ^ 7 + 512 * 2 ^ 12) 0 0
    (fun _ => SHADOW_NONPRESENT_VALUE) (fun _ => 0) 0 (-5) 0 rfl (by decide)

/-- C5 (counterexample): split a present huge leaf (frame 256) into
512 children — all of which are then present and map the contiguous
frames 256+i — and merge them back with the very same huge entry as
target.  Because every child is present, the child at the faulting
gfn makes the loop accumulate `-EAGAIN` (tdp_mmu.c:1654-1657), so the
merge goes around instead of completing: the parent keeps the
non-leaf link installed by the split, which is not bit-equal to the
pre-split entry even modulo accessed/dirty bits. -/
theorem C5_split_merge_roundtrip_counterexample :
    ((List.range 512).all (fun i =>
      is_shadow_present_pte
        ((tdp_mmu_split_huge_page (2 ^ 11 + 2 ^ 7 + 256 * 2 ^ 12) 999).1 i) &&
      (spte_to_pfn
        ((tdp_mmu_split_huge_page (2 ^ 11 + 2 ^ 7 + 256 * 2 ^ 12) 999).1 i)
        == 256 + i)) = true) ∧
    (split_merge_roundtrip (2 ^ 11 + 2 ^ 7 + 256 * 2 ^ 12) 999
        (2 ^ 11 + 2 ^ 7 + 256 * 2 ^ 12) 8192 8192 (fun _ => 0) 0 0 0).merged =
      false ∧
    (split_merge_roundtrip (2 ^ 11 + 2 ^ 7 + 256 * 2 ^ 12) 999
        (2 ^ 11 + 2 ^ 7 + 256 * 2 ^ 12) 8192 8192 (fun _ => 0) 0 0 0).ret =
      -EAGAIN ∧
    (split_merge_roundtrip (2 ^ 11 + 2 ^ 7 + 256 * 2 ^ 12) 999
        (2 ^ 11 + 2 ^ 7 + 256 * 2 ^ 12) 8192 8192 (fun _ => 0) 0 0 0).parentEntry =
      make_nonleaf_spte 999 ∧
    clear_ad_bits
      (split_merge_roundtrip (2 ^ 11 + 2 ^ 7 + 256 * 2 ^ 12) 999
        (2 ^ 11 + 2 ^ 7 + 256 * 2 ^ 12) 8192 8192 (fun _ => 0) 0 0 0).parentEntry ≠
      clear_ad_bits (2 ^ 11 + 2 ^ 7 + 256 * 2 ^ 12) := by
  refine ⟨by decide, by decide, by decide, by decide, by decide⟩

/-- C5 (amended): after splitting a present huge leaf, the merge
completes exactly when the faulting child slot has been re-cleared to
non-present (it is repopulated during the merge itself) and the
external calls succeed; the resulting huge entry is the merge target
`new_spte`, so it is bit-equal to the pre-split entry modulo
accessed/dirty bits whenever the target carries the pre-split entry's
frame and agrees with it outside the accessed/dirty bits.  (With all
512 children still present the merge instead returns the go-around
signal and leaves the split structure in place, as the counterexample
shows.) -/
theorem C5_split_merge_roundtrip_amended
    (hugeSpte childTablePfn newSpte baseGfn k : Nat) (casChild : Nat → Int)
    (hk : k < SPTE_ENT_PER_PAGE)
    (hpres : is_shadow_present_pte hugeSpte = true)
    (hpfneq : spte_to_pfn newSpte = spte_to_pfn hugeSpte)
    (hnowrap : spte_to_pfn hugeSpte + SPTE_ENT_PER_PAGE ≤ 2 ^ 40)
    (hcas : casChild k = 0) :
    (tdp_mmu_merge_private_spt (tdp_mmu_split_huge_page hugeSpte childTablePfn).2
        (tdp_mmu_split_huge_page hugeSpte childTablePfn).2 newSpte baseGfn
        (baseGfn + k)
        (fun i => if i = k then SHADOW_NONPRESENT_VALUE
                  else (tdp_mmu_split_huge_page hugeSpte childTablePfn).1 i)
        casChild 0 0 0).merged = true ∧
    (tdp_mmu_merge_private_spt (tdp_mmu_split_huge_page hugeSpte childTablePfn).2
        (tdp_mmu_split_huge_page hugeSpte childTablePfn).2 newSpte baseGfn
        (baseGfn + k)
        (fun i => if i = k then SHADOW_NONPRESENT_VALUE
                  else (tdp_mmu_split_huge_page hugeSpte childTablePfn).1 i)
        casChild 0 0 0).parentEntry = newSpte ∧
    (clear_ad_bits newSpte = clear_ad_bits hugeSpte →
      clear_ad_bits
        (tdp_mmu_merge_private_spt
          (tdp_mmu_split_huge_page hugeSpte childTablePfn).2
          (tdp_mmu_split_huge_page hugeSpte childTablePfn).2 newSpte baseGfn
          (baseGfn + k)
          (fun i => if i = k then SHADOW_NONPRESENT_VALUE
                    else (tdp_mmu_split_huge_page hugeSpte childTablePfn).1 i)
          casChild 0 0 0).parentEntry = clear_ad_bits hugeSpte) := by
  have hnp : is_shadow_present_pte SHADOW_NONPRESENT_VALUE = false := by decide
  have hloop := merge_child_loop_all_ok newSpte baseGfn (baseGfn + k) casChild
    (fun i => if i = k then SHADOW_NONPRESENT_VALUE
              else (tdp_mmu_split_huge_page hugeSpte childTablePfn).1 i)
    SPTE_ENT_PER_PAGE 0
    (fun i => if i = k then SHADOW_NONPRESENT_VALUE
              else (tdp_mmu_split_huge_page hugeSpte childTablePfn).1 i)
    (fun j _ => rfl) ?_
  · simp only [tdp_mmu_merge_private_spt]
    rw [if_neg (by simp)]
    rw [hloop]
    norm_num
  · intro j hj0 hj
    by_cases hjk : j = k
    · subst hjk
      simp [hnp, hcas]
    · have hb : spte_to_pfn hugeSpte + j < 2 ^ 40 := by
        have : (SPTE_ENT_PER_PAGE : Nat) = 512 := rfl
        omega
      have hspec := make_huge_page_split_spte_spec hugeSpte j hb
      simp only [if_neg hjk, tdp_mmu_split_huge_page]
      rw [hspec.2, hpres]
      simp only [if_pos rfl]
      refine ⟨by rw [hspec.1, hpfneq], by omega⟩

/-- Witness for C5's amended theorem at a concrete huge entry (frame
256, fault at child 3). -/
theorem C5_split_merge_roundtrip_amended_witness :
    (tdp_mmu_merge_private_spt
        (tdp_mmu_split_huge_page (2 ^ 11 + 2 ^ 7 + 256 * 2 ^ 12) 999).2
        (tdp_mmu_split_huge_page (2 ^ 11 + 2 ^ 7 + 256 * 2 ^ 12) 999).2
        (2 ^ 11 + 2 ^ 7 + 256 * 2 ^ 12) 8192 (8192 + 3)
        (fun i => if i = 3 then SHADOW_NONPRESENT_VALUE
                  else (tdp_mmu_split_huge_page (2 ^ 11 + 2 ^ 7 + 256 * 2 ^ 12)
                    999).1 i)
        (fun _ => 0) 0 0 0).merged = true :=
  (C5_split_merge_roundtrip_amended (2 ^ 11 + 2 ^ 7 + 256 * 2 ^ 12) 999
    (2 ^ 11 + 2 ^ 7 + 256 * 2 ^ 12) 8192 3 (fun _ => 0) (by decide) (by decide)
    rfl (by decide) rfl).1

/-- C1: if the old value is a present leaf and the new value is a
present leaf mapping a different frame, `handle_changed_spte` takes
the fatal `BUG()` path and performs none of the normal bookkeeping;
conversely, whenever the transition is not a present-leaf-to-
present-leaf frame change, the fatal branch is not taken. -/
theorem C1_changed_spte_leaf_pfn_change_bug
    (old_spte new_spte : Nat) (is_private : Bool) (level : Nat) (shared : Bool) :
    (is_shadow_present_pte old_spte = true →
     is_last_spte old_spte level = true →
     is_shadow_present_pte new_spte = true →
     is_last_spte new_spte level = true →
     spte_to_pfn old_spte ≠ spte_to_pfn new_spte →
      handle_changed_spte old_spte new_spte is_private level shared =
        { noEffects with bug := true }) ∧
    (¬(is_shadow_present_pte old_spte = true ∧ is_last_spte old_spte level = true ∧
       is_shadow_present_pte new_spte = true ∧ is_last_spte new_spte level = true ∧
       spte_to_pfn old_spte ≠ spte_to_pfn new_spte) →
      (handle_changed_spte old_spte new_spte is_private level shared).bug = false) := by
  constructor
  · intro h1 h2 h3 h4 h5
    unfold handle_changed_spte
    simp [h1, h2, h3, h4, h5]
  · intro hn
    simp only [handle_changed_spte]
    split
    · next h =>
      exfalso
      simp only [Bool.and_eq_true, decide_eq_true_eq] at h
      exact hn ⟨h.1.1.1, h.1.1.2, h.1.2.1, h.1.2.2, h.2⟩
    · split
      · rfl
      · split
        · rfl
        · split
          · rfl
          · rfl

/-- Witness for C1: a present 4K leaf for frame 5 replaced in place by
a present 4K leaf for frame 6 crashes; the same replacement going
through the non-present state does not. -/
theorem C1_changed_spte_leaf_pfn_change_bug_witness :
    (handle_changed_spte (2 ^ 11 + 5 * 2 ^ 12) (2 ^ 11 + 6 * 2 ^ 12)
        false 1 true = { noEffects with bug := true }) ∧
    ((handle_changed_spte (2 ^ 11 + 5 * 2 ^ 12) SHADOW_NONPRESENT_VALUE
        false 1 true).bug = false) := by
  constructor
  · exact (C1_changed_spte_leaf_pfn_change_bug (2 ^ 11 + 5 * 2 ^ 12)
      (2 ^ 11 + 6 * 2 ^ 12) false 1 true).1 (by decide) (by decide) (by decide)
      (by decide) (by decide)
  · exact (C1_changed_spte_leaf_pfn_change_bug (2 ^ 11 + 5 * 2 ^ 12)
      SHADOW_NONPRESENT_VALUE false 1 true).2 (by decide)

/-- C2 (failing input): on a private slot with a present `new_spte`,
when the entry's current value differs from `iter->old_spte`,
`tdp_mmu_set_spte_atomic` returns `-EBUSY` with no entry change, no
secure-resource-manager call and no bookkeeping — but, contrary to the
claim (and to the function's own doc comment, tdp_mmu.c:926-928), it
does NOT refresh `iter->old_spte`: `try_cmpxchg64` inside
`set_private_spte_present` updates only a by-value local copy.  The
cursor's observed value stays stale (still differing from the
entry). -/
theorem C2_set_spte_atomic_private_present_stale_iter :
    tdp_mmu_set_spte_atomic
      { entry := 2 ^ 11 + 7 * 2 ^ 12, iterOldSpte := 2 ^ 11 + 5 * 2 ^ 12,
        isPrivateSptep := true, pageCount := 0 }
      (2 ^ 11 + 9 * 2 ^ 12) 0 =
      { ret := -EBUSY
        state := { entry := 2 ^ 11 + 7 * 2 ^ 12,
                   iterOldSpte := 2 ^ 11 + 5 * 2 ^ 12,
                   isPrivateSptep := true, pageCount := 0 }
        tdxCallIssued := false
        bookkeepingRan := false } ∧
    (2 ^ 11 + 5 * 2 ^ 12 : Nat) ≠ 2 ^ 11 + 7 * 2 ^ 12 := by
  constructor
  · rfl
  · decide

/-- Helper: the root scan returns exactly the first live root whose
role word matches (incremented), and never changes the length of the
root list; with no match it leaves the list untouched. -/
theorem no_alloc_find_spec (role : Nat) (roots : List MmuRoot) :
    ((kvm_tdp_mmu_get_vcpu_root_no_alloc roots role).1 =
      (List.find? (fun x => x.roleWord == role && !(x.refcount == 0)) roots).map
        (fun r => { r with refcount := r.refcount + 1 })) ∧
    ((kvm_tdp_mmu_get_vcpu_root_no_alloc roots role).2.length = roots.length) ∧
    (List.find? (fun x => x.roleWord == role && !(x.refcount == 0)) roots = none →
      (kvm_tdp_mmu_get_vcpu_root_no_alloc roots role).2 = roots) := by
  induction roots with
  | nil => simp [kvm_tdp_mmu_get_vcpu_root_no_alloc]
  | cons r rest ih =>
    by_cases hw : r.roleWord = role
    · by_cases hc : r.refcount = 0
      · have hcond : ¬(kvm_mmu_role_as_id r.roleWord = kvm_mmu_role_as_id role ∧
            r.roleWord = role ∧ r.refcount ≠ 0) := by
          intro h; exact h.2.2 hc
        simp [kvm_tdp_mmu_get_vcpu_root_no_alloc, hcond, List.find?_cons, hw, hc,
          ih.1, ih.2.1]
        intro hnone
        exact ih.2.2 (List.find?_eq_none.mpr (fun x hx => by simpa using hnone x hx))
      · have hcond : kvm_mmu_role_as_id r.roleWord = kvm_mmu_role_as_id role ∧
            r.roleWord = role ∧ r.refcount ≠ 0 := ⟨by rw [hw], hw, hc⟩
        simp [kvm_tdp_mmu_get_vcpu_root_no_alloc, hcond, List.find?_cons, hw, hc]
    · have hcond : ¬(kvm_mmu_role_as_id r.roleWord = kvm_mmu_role_as_id role ∧
          r.roleWord = role ∧ r.refcount ≠ 0) := by
        intro h; exact hw h.2.1
      simp [kvm_tdp_mmu_get_vcpu_root_no_alloc, hcond, List.find?_cons, hw,
        ih.1, ih.2.1]
      intro hnone
      exact ih.2.2 (List.find?_eq_none.mpr (fun x hx => by simpa using hnone x hx))

/-- C9: if a live root with the exact requested role is already in the
list, `kvm_tdp_mmu_get_vcpu_root` returns that (first such) root with
its reference count incremented and links no new root (the list keeps
its length); otherwise it allocates a fresh root with reference count
exactly 2 and links it at the head of the list. -/
theorem C9_get_vcpu_root_find_or_create
    (roots : List MmuRoot) (baseRole : Nat) (isPrivate : Bool) :
    (∀ r, List.find? (fun x => x.roleWord ==
        (if isPrivate then kvm_mmu_page_role_set_private baseRole else baseRole) &&
        !(x.refcount == 0)) roots = some r →
      (kvm_tdp_mmu_get_vcpu_root roots baseRole isPrivate).allocated = false ∧
      (kvm_tdp_mmu_get_vcpu_root roots baseRole isPrivate).root =
        { r with refcount := r.refcount + 1 } ∧
      (kvm_tdp_mmu_get_vcpu_root roots baseRole isPrivate).roots.length =
        roots.length) ∧
    (List.find? (fun x => x.roleWord ==
        (if isPrivate then kvm_mmu_page_role_set_private baseRole else baseRole) &&
        !(x.refcount == 0)) roots = none →
      (kvm_tdp_mmu_get_vcpu_root roots baseRole isPrivate).allocated = true ∧
      (kvm_tdp_mmu_get_vcpu_root roots baseRole isPrivate).root =
        { roleWord := if isPrivate then kvm_mmu_page_role_set_private baseRole
                      else baseRole, refcount := 2 } ∧
      (kvm_tdp_mmu_get_vcpu_root roots baseRole isPrivate).roots =
        { roleWord := (if isPrivate then kvm_mmu_page_role_set_private baseRole
                       else baseRole), refcount := 2 } :: roots) := by
  have hspec := no_alloc_find_spec
    (if isPrivate then kvm_mmu_page_role_set_private baseRole else baseRole) roots
  constructor
  · intro r hfind
    have h1 := hspec.1
    rw [hfind] at h1
    simp only [Option.map_some'] at h1
    simp only [kvm_tdp_mmu_get_vcpu_root]
    rw [h1]
    exact ⟨rfl, rfl, hspec.2.1⟩
  · intro hnone
    have h1 := hspec.1
    rw [hnone] at h1
    simp only [Option.map_none'] at h1
    simp only [kvm_tdp_mmu_get_vcpu_root]
    rw [h1]
    exact ⟨rfl, rfl, by rw [hspec.2.2 hnone]⟩

/-- Witness for C9: a list holding a live root with the requested role
yields that root with count 3 and no allocation; an empty list yields
a fresh root with count 2. -/
theorem C9_get_vcpu_root_find_or_create_witness :
    ((kvm_tdp_mmu_get_vcpu_root [{ roleWord := 8, refcount := 2 }] 8 false).root =
      { roleWord := 8, refcount := 3 }) ∧
    ((kvm_tdp_mmu_get_vcpu_root [] 8 false).root = { roleWord := 8, refcount := 2 }) := by
  constructor
  · exact (((C9_get_vcpu_root_find_or_create [{ roleWord := 8, refcount := 2 }]
      8 false).1 { roleWord := 8, refcount := 2 } (by decide)).2).1
  · exact ((C9_get_vcpu_root_find_or_create [] 8 false).2 (by decide)).2.1

/-- C7: a fault in the private address space that is not a non-leaf
walk and whose pfn has no valid refcounted backing page makes
`kvm_tdp_mmu_map` return `-EFAULT` before walking the tree, whatever
the walk would have produced. -/
theorem C7_map_private_no_page_efault
    (sharedMask : Nat) (fault : PageFault) (walkResult : Int)
    (hshared : sharedMask ≠ 0)
    (hpriv : fault.is_private = true)
    (hnonleaf : fault.nonleaf = false)
    (hnopage : fault.pfn_error_noslot = true ∨ fault.pfn_refcounted = false) :
    kvm_tdp_mmu_map sharedMask fault walkResult = MapOutcome.efaultNoWalk := by
  unfold kvm_tdp_mmu_map
  rcases hnopage with h | h <;> simp [hshared, hpriv, hnonleaf, h]

/-- Witness for C7 at a concrete fault. -/
theorem C7_map_private_no_page_efault_witness :
    kvm_tdp_mmu_map 1024
      { is_private := true, nonleaf := false, pfn_error_noslot := false,
        pfn_refcounted := false } 0 = MapOutcome.efaultNoWalk :=
  C7_map_private_no_page_efault 1024
    { is_private := true, nonleaf := false, pfn_error_noslot := false,
      pfn_refcounted := false } 0 (by decide) rfl rfl (Or.inr rfl)

end TdpMmu
